import Mathlib

/-!
Verification of the kpmenu session daemon core: the session cache controller
(`Show` in kpmenulib.go), the daemon listener (`setupListener` in sequence.go),
the clipboard lifecycle (`CleanClipboard` in clipboard.go), the packet
round-trip of the loopback protocol, and the top-menu selection logic
(`PromptMenu` in prompt.go).  Machine integers are modelled as `Int`;
timestamps are whole seconds since the Go zero time (`time.Time{}` is `0`).
-/

namespace Kpmenu

/-! ## Data model (configuration.go, menu.go) -/

/-- `ConfigurationDatabase` (configuration.go): the database-related settings
compared by `Show` on every dispatched packet.  Only the three fields that the
credential comparison reads are modelled. -/
structure ConfigurationDatabase where
  database : String
  keyFile : String
  password : String
deriving DecidableEq, Repr

/-- `ConfigurationGeneral` (configuration.go): the general settings the session
cache controller and clipboard lifecycle read. -/
structure ConfigurationGeneral where
  noCache : Bool
  cacheOneTime : Bool
  cacheTimeout : Int
  clipboardTimeout : Int
deriving DecidableEq, Repr

/-- `Flags` (configuration.go): cli-only flags; `daemon` is the permanent
daemon flag. -/
structure Flags where
  daemon : Bool
deriving DecidableEq, Repr

/-- `Configuration` (configuration.go), restricted to the sub-structures the
claims touch. -/
structure Configuration where
  general : ConfigurationGeneral
  database : ConfigurationDatabase
  flags : Flags
deriving DecidableEq, Repr

/-- The mutable session state of `Menu` (menu.go) read and written by `Show`:
`cacheStart` (seconds since the Go zero time, `0` models `time.Time{}`),
`Database.Loaded`, and the active configuration. -/
structure Menu where
  cacheStart : Int
  loaded : Bool
  configuration : Configuration
deriving DecidableEq, Repr

/-! ## Go time arithmetic -/

/-- The saturation bound of Go `time.Duration` in whole seconds:
`(1<<63 - 1)` nanoseconds truncated to seconds (about 292 years). -/
def maxDurationSeconds : Int := 9223372036

/-- `int(t.Sub(u).Seconds())` in whole seconds: `time.Time.Sub` saturates at
the maximum `time.Duration` when the difference overflows, which happens
whenever `u` is the zero `time.Time` and `t` is a realistic wall clock. -/
def goSubSeconds (t u : Int) : Int := min (t - u) maxDurationSeconds

/-! ## Session cache controller (`Show`, kpmenulib.go) -/

/-- The configuration re-derivation at the top of `Show`: `handleConfiguration`
and `ParseFlags` replace the active configuration with the one re-derived from
the packet argument list (the re-derivation itself is the excluded config
layer; its result is the `newCfg` argument below). -/
def updateConfig (m : Menu) (newCfg : Configuration) : Menu :=
  { m with configuration := newCfg }

/-- The credential comparison of `Show` (kpmenulib.go): `copiedDatabase` is the
database configuration saved before re-handling; any difference in database
path, keyfile or password forces `Loaded = false`. -/
def credentialCheck (copiedDatabase : ConfigurationDatabase) (m : Menu) : Menu :=
  if copiedDatabase.database ≠ m.configuration.database.database
      ∨ copiedDatabase.keyFile ≠ m.configuration.database.keyFile
      ∨ copiedDatabase.password ≠ m.configuration.database.password then
    { m with loaded := false }
  else m

/-- The cache-timeout evaluation of `Show` (kpmenulib.go): skipped entirely for
a permanent daemon; otherwise no-cache and unset `cacheStart` force
`Loaded = false`; a valid window renews `cacheStart` unless `cacheOneTime`;
an expired window forces `Loaded = false`. -/
def cacheCheck (m : Menu) (now : Int) : Menu :=
  if m.configuration.flags.daemon = true then m
  else if m.configuration.general.noCache = true then { m with loaded := false }
  else if m.cacheStart = 0 then { m with loaded := false }
  else if goSubSeconds now m.cacheStart < m.configuration.general.cacheTimeout then
    if m.configuration.general.cacheOneTime = false then { m with cacheStart := now }
    else m
  else { m with loaded := false }

/-- `Show` (kpmenulib.go) on the successful configuration-reload path, up to
the final `return Execute(menu)`: the resulting `Menu` is the state the
navigation cycle (`Execute`) observes. -/
def showUpdate (m : Menu) (newCfg : Configuration) (now : Int) : Menu :=
  cacheCheck (credentialCheck m.configuration.database (updateConfig m newCfg)) now

/-! ## Loopback protocol (`Packet`, sequence.go) -/

/-- `Packet` (sequence.go): the single record a client sends over the loopback
connection, carrying its ordered command-line argument list. -/
structure Packet where
  cliArguments : List String
deriving DecidableEq, Repr

/-- Modelled from the spec: the serialized form of a `Packet` on the loopback
connection is produced by the external `encoding/gob` standard-library codec,
which is not code of this repository; per the spec it is "a single serialized
record per TCP connection, containing the ordered list of command-line
argument strings".  The wire is modelled as a stream of symbols that are
either a count or a character. -/
inductive WireSym where
  | num (n : Nat)
  | ch (c : Char)
deriving DecidableEq, Repr

/-- Serialization of one string: its length followed by its characters. -/
def encodeString (s : String) : List WireSym :=
  WireSym.num s.data.length :: s.data.map WireSym.ch

/-- The client side (`StartClient`, sequence.go): `gob.NewEncoder(conn).Encode`
of `Packet{CliArguments: os.Args[1:]}`, modelled as the record length followed
by each serialized argument. -/
def encodePacket (p : Packet) : List WireSym :=
  WireSym.num p.cliArguments.length :: (p.cliArguments.map encodeString).flatten

/-- Reads `n` characters off the wire, failing on a malformed stream. -/
def takeChars : Nat → List WireSym → Option (List Char × List WireSym)
  | 0, rest => some ([], rest)
  | Nat.succ n, WireSym.ch c :: rest =>
    match takeChars n rest with
    | some (cs, r) => some (c :: cs, r)
    | none => none
  | Nat.succ _, _ => none

/-- Reads one length-prefixed string off the wire. -/
def decodeOneString : List WireSym → Option (String × List WireSym)
  | WireSym.num n :: rest =>
    match takeChars n rest with
    | some (cs, r) => some (String.mk cs, r)
    | none => none
  | _ => none

/-- Reads `n` serialized strings off the wire. -/
def decodeStrings : Nat → List WireSym → Option (List String × List WireSym)
  | 0, rest => some ([], rest)
  | Nat.succ n, w =>
    match decodeOneString w with
    | some (s, r) =>
      match decodeStrings n r with
      | some (ss, r2) => some (s :: ss, r2)
      | none => none
    | none => none

/-- The daemon side (`setupListener`, sequence.go): `gob.NewDecoder(conn).Decode`
into a `Packet`, modelled as reading the record length and then that many
strings, consuming the whole record. -/
def decodePacket (w : List WireSym) : Option Packet :=
  match w with
  | WireSym.num n :: rest =>
    match decodeStrings n rest with
    | some (ss, []) => some { cliArguments := ss }
    | _ => none
  | _ => none

/-! ## Daemon listener accept loop (`setupListener`, sequence.go) -/

/-- The remaining cache budget computed at the top of every accept-loop
iteration (sequence.go):
`m.Configuration.General.CacheTimeout - int(time.Now().Sub(m.CacheStart).Seconds())`.
There is no special case for the permanent-daemon flag. -/
def remainingCacheTime (cacheTimeout cacheStart now : Int) : Int :=
  cacheTimeout - goSubSeconds now cacheStart

/-- Outcome of `listener.Accept()` under `SetDeadline`. -/
inductive AcceptOutcome where
  | timedOut
  | accepted (connTime : Int)
deriving DecidableEq, Repr

/-- `net.TCPListener.Accept` under `SetDeadline(deadline)`: a pending
connection arriving at `connTime` is returned iff it arrives no later than the
deadline; otherwise (and in particular whenever the deadline is already in the
past) `Accept` fails with a timeout error. -/
def acceptWithDeadline (deadline : Int) (nextConn : Option Int) : AcceptOutcome :=
  match nextConn with
  | some t => if t ≤ deadline then AcceptOutcome.accepted t else AcceptOutcome.timedOut
  | none => AcceptOutcome.timedOut

/-- What one accept-loop iteration does next. -/
inductive ListenerStep where
  | gracefulShutdown
  | handleConnection (connTime : Int)
deriving DecidableEq, Repr

/-- One iteration of the accept loop in `setupListener` (sequence.go): compute
the deadline `time.Now().Add(remainingCacheTime seconds)`, then `Accept`; a
timeout error logs "cache timed out" and returns `nil` (graceful shutdown of
the listener), an accepted connection is handled. -/
def listenerIteration (cacheTimeout cacheStart now : Int) (nextConn : Option Int) :
    ListenerStep :=
  match acceptWithDeadline (now + remainingCacheTime cacheTimeout cacheStart now) nextConn with
  | AcceptOutcome.timedOut => ListenerStep.gracefulShutdown
  | AcceptOutcome.accepted t => ListenerStep.handleConnection t

/-! ## Packet decode watchdog (`setupListener`, sequence.go) -/

/-- Result of the gob decode goroutine body: success, a clean stream closure
(`io.EOF`, on which the goroutine returns without sending on either channel),
or any other decode error (sent on `errCh`). -/
inductive GobDecodeResult where
  | ok (p : Packet)
  | eof
  | failure (e : String)
deriving DecidableEq, Repr

/-- One decode attempt: its result and the time (seconds after the connection
was accepted) at which the decode goroutine finishes. -/
structure DecodeRun where
  result : GobDecodeResult
  finishTime : Int
deriving DecidableEq, Repr

/-- Outcome of the `select` over the packet channel, the error channel and the
3-second `time.Tick` watchdog. -/
inductive DispatchOutcome where
  | dispatched (p : Packet)
  | fatal (e : String)
  | absorbedTimeout
deriving DecidableEq, Repr

/-- The `select` in `setupListener` (sequence.go): whichever of the decode
goroutine and the 3-second tick finishes first wins.  A successful decode in
time dispatches the packet; a non-`io.EOF` decode error in time is returned
from `setupListener` (process-fatal); a clean closure sends nothing on either
channel, so the tick fires and the call is absorbed, exactly as when the
decode is still running at the tick ("received request is timed out" is
logged and the loop continues). -/
def watchdogOutcome (d : DecodeRun) : DispatchOutcome :=
  if d.finishTime < 3 then
    match d.result with
    | GobDecodeResult.ok p => DispatchOutcome.dispatched p
    | GobDecodeResult.failure e => DispatchOutcome.fatal e
    | GobDecodeResult.eof => DispatchOutcome.absorbedTimeout
  else DispatchOutcome.absorbedTimeout

/-! ## Daemon loop termination and process shutdown (sequence.go, main.go) -/

/-- The ways the accept loop of `setupListener` (sequence.go) terminates. -/
inductive LoopTermination where
  | deadlineExpiry
  | clientExit
  | decodeFailure (e : String)
  | acceptFailure (e : String)
deriving DecidableEq, Repr

/-- The value `setupListener` (and hence `StartServer`) returns in each
termination case: `nil` on a fired accept deadline and when `handlePacket`
reports exit (explicit Exit selection or a fatal navigation error); the error
itself on a non-EOF decode failure or a non-timeout accept failure. -/
def setupListenerReturn : LoopTermination → Option String
  | LoopTermination.deadlineExpiry => none
  | LoopTermination.clientExit => none
  | LoopTermination.decodeFailure e => some e
  | LoopTermination.acceptFailure e => some e

/-- The shutdown path of `main` (main.go): on a non-nil server error it calls
`log.Fatal(err)`, which exits the process at once; only on a nil error does it
reach `menu.WaitGroup.Wait()`.  Returns whether the process waits on the
clipboard-task `WaitGroup` before terminating. -/
def mainWaitsForClipboardTasks (serverReturn : Option String) : Bool :=
  match serverReturn with
  | some _ => false
  | none => true

/-! ## Clipboard lifecycle (`CleanClipboard`, clipboard.go) -/

/-- Result of `GetClipboard` inside the clear task: the live clipboard content
or a backend error. -/
inductive ClipReadResult where
  | ok (content : String)
  | readError (msg : String)
deriving DecidableEq, Repr

/-- What the clear task does to the clipboard. -/
inductive ClipAction where
  | clear
  | keep
deriving DecidableEq, Repr

/-- The decision inside the goroutine of `CleanClipboard` (clipboard.go) after
the timed sleep: on a successful read, clear only when the live content equals
the snapshot `text` taken at copy time, otherwise log and keep; on a read
error, only log (no clear). -/
def cleanClipboardDecision (text : String) (read : ClipReadResult) : ClipAction :=
  match read with
  | ClipReadResult.ok current => if text = current then ClipAction.clear else ClipAction.keep
  | ClipReadResult.readError _ => ClipAction.keep

/-- Effect of the decided action on the clipboard: `xsel -bc` / `wl-copy -c`
empties it, keeping leaves it untouched. -/
def applyClipAction (a : ClipAction) (clipboard : String) : String :=
  match a with
  | ClipAction.clear => ""
  | ClipAction.keep => clipboard

/-- End-to-end effect of one clear task whose `GetClipboard` succeeded and
returned the live clipboard content. -/
def cleanClipboardResult (text live : String) : String :=
  applyClipAction (cleanClipboardDecision text (ClipReadResult.ok live)) live

/-- The guard of `CleanClipboard` (clipboard.go): a clear task is spawned only
for a positive configured clear timeout. -/
def cleanClipboardSchedules (clipboardTimeout : Int) : Bool :=
  decide (0 < clipboardTimeout)

/-! ## Top-menu selection (`PromptMenu`, prompt.go; `OpenMenu`, menu.go) -/

/-- `menuSelections` (prompt.go): the three fixed, ordered top-menu options. -/
def menuSelections : List String := ["Show entries", "Reload database", "Exit"]

/-- The `MenuSelection` enum values (prompt.go); Go declares them as
consecutive integers starting at the zero value `MenuShow`. -/
def MenuShow : Nat := 0

/-- `MenuReload` (prompt.go). -/
def MenuReload : Nat := 1

/-- `MenuExit` (prompt.go). -/
def MenuExit : Nat := 2

/-- The selection loop of `PromptMenu` (prompt.go) on the non-cancelled,
error-free path: `var selection MenuSelection` starts at the zero value; the
loop over `menuSelections` sets it to the index of the first option equal to
the picker output and breaks; an unmatched output leaves the zero value. -/
def promptMenuSelection (result : String) : Nat :=
  match menuSelections.findIdx? (fun sel => sel == result) with
  | some ind => ind
  | none => MenuShow

/-- The next navigation step chosen by `OpenMenu` (menu.go). -/
inductive NavStep where
  | entrySelection
  | reloadDatabase
  | exitFatal
  | fallthroughNil
deriving DecidableEq, Repr

/-- The `switch selectedMenu` of `OpenMenu` (menu.go): `MenuShow` runs
`entrySelection`, `MenuReload` reloads, `MenuExit` is the fatal exit; the
switch has no default case and falls through to `return nil`. -/
def openMenuDispatch (selection : Nat) : NavStep :=
  if selection = MenuShow then NavStep.entrySelection
  else if selection = MenuReload then NavStep.reloadDatabase
  else if selection = MenuExit then NavStep.exitFatal
  else NavStep.fallthroughNil

/-! ## Concrete sample values used by witnesses -/

/-- A sample non-daemon configuration with the default cache settings
(cacheTimeout 60, clipboardTimeout 15, sliding window). -/
def sampleConfig : Configuration :=
  { general := { noCache := false, cacheOneTime := false, cacheTimeout := 60,
                 clipboardTimeout := 15 }
    database := { database := "/home/user/passwords.kdbx", keyFile := "", password := "" }
    flags := { daemon := false } }

/-- `sampleConfig` with the one-time-cache flag set. -/
def sampleOneTimeConfig : Configuration :=
  { sampleConfig with general := { sampleConfig.general with cacheOneTime := true } }

/-- A re-derived configuration whose database path differs from
`sampleConfig`. -/
def sampleChangedConfig : Configuration :=
  { sampleConfig with
    database := { sampleConfig.database with database := "/home/user/other.kdbx" } }

/-- A permanent-daemon configuration (`--daemon`) with default cache
settings. -/
def daemonConfig : Configuration :=
  { sampleConfig with flags := { daemon := true } }

/-- A wall-clock instant, in seconds since the Go zero time (year 1): about
the year 2026.  Any realistic clock exceeds `maxDurationSeconds`. -/
def nowSeconds : Int := 63900000000

/-- Sample copied value. -/
def sampleCopiedValue : String := "A"

/-- Sample externally overwritten clipboard value. -/
def sampleOverwrittenValue : String := "B"

/-- Sample backend error message. -/
def sampleErrMsg : String := "exit status 1"

/-- A picker output line matching none of the three top-menu options. -/
def sampleUnmatchedLine : String := "Show entrie"

/-! ## Helper lemmas -/

/-- The cache evaluation of `Show` never sets `Loaded` back to `true`: every
branch either forces it to `false` or leaves it unchanged. -/
theorem cacheCheck_keeps_unloaded (m : Menu) (now : Int) (h : m.loaded = false) :
    (cacheCheck m now).loaded = false := by
  unfold cacheCheck
  split_ifs <;> simp [h]

/-- A valid sliding-window cache call: with caching on, the window open and
`cacheOneTime` off, `Show` only renews `cacheStart`. -/
theorem showUpdate_valid_window (c : Configuration) (cs t : Int)
    (hdaemon : c.flags.daemon = false) (hnocache : c.general.noCache = false)
    (honetime : c.general.cacheOneTime = false)
    (hcs : cs ≠ 0) (hlt : t - cs < c.general.cacheTimeout) :
    showUpdate ⟨cs, true, c⟩ c t = ⟨t, true, c⟩ := by
  have hvalid : goSubSeconds t cs < c.general.cacheTimeout :=
    lt_of_le_of_lt (min_le_left _ _) hlt
  unfold showUpdate credentialCheck updateConfig cacheCheck
  simp [hdaemon, hnocache, honetime, hcs, hvalid]

/-! ## Claim theorems -/

/-- C1: for every packet dispatched by the daemon, if the database path,
keyfile or password re-derived from the packet argument list differs from the
currently active one, `Show` forces `Loaded = false` in the state the
navigation cycle observes, regardless of cache validity (`now` and all cache
flags are universally quantified). -/
theorem show_credential_change_forces_unload (m : Menu) (newCfg : Configuration) (now : Int)
    (h : newCfg.database.database ≠ m.configuration.database.database
      ∨ newCfg.database.keyFile ≠ m.configuration.database.keyFile
      ∨ newCfg.database.password ≠ m.configuration.database.password) :
    (showUpdate m newCfg now).loaded = false := by
  apply cacheCheck_keeps_unloaded
  rcases h with h | h | h <;> simp [credentialCheck, updateConfig, Ne.symm h]

/-- Witness for C1: a client call with a changed database path against a
cache-valid session still ends up unloaded. -/
theorem show_credential_change_forces_unload_witness :
    (showUpdate ⟨10, true, sampleConfig⟩ sampleChangedConfig 20).loaded = false :=
  show_credential_change_forces_unload ⟨10, true, sampleConfig⟩ sampleChangedConfig 20
    (Or.inl (by decide))

/-- C2: with caching enabled, `cacheOneTime = false` and `cacheStart` set, two
calls each separated by less than the timeout both observe `loaded = true`,
and each renews `cacheStart` to its own call time (sliding window). -/
theorem show_sliding_window_renews (c : Configuration) (cs t1 t2 : Int)
    (hdaemon : c.flags.daemon = false) (hnocache : c.general.noCache = false)
    (honetime : c.general.cacheOneTime = false)
    (hcs : 0 < cs) (hct : cs ≤ t1)
    (h1 : t1 - cs < c.general.cacheTimeout)
    (h2 : t2 - t1 < c.general.cacheTimeout) :
    showUpdate ⟨cs, true, c⟩ c t1 = ⟨t1, true, c⟩ ∧
    showUpdate ⟨t1, true, c⟩ c t2 = ⟨t2, true, c⟩ := by
  constructor
  · exact showUpdate_valid_window c cs t1 hdaemon hnocache honetime (ne_of_gt hcs) h1
  · exact showUpdate_valid_window c t1 t2 hdaemon hnocache honetime
      (ne_of_gt (lt_of_lt_of_le hcs hct)) h2

/-- Witness for C2: two calls at 30 and 59 seconds against an unlock at 10,
timeout 60: both keep `loaded = true` and slide the window. -/
theorem show_sliding_window_renews_witness :
    showUpdate ⟨10, true, sampleConfig⟩ sampleConfig 30 = ⟨30, true, sampleConfig⟩ ∧
    showUpdate ⟨30, true, sampleConfig⟩ sampleConfig 59 = ⟨59, true, sampleConfig⟩ :=
  show_sliding_window_renews sampleConfig 10 30 59 rfl rfl rfl (by decide) (by decide)
    (by decide) (by decide)

/-- C3: with caching enabled, `cacheOneTime = true` and `cacheStart` set, a
call inside the window (measured from the original unlock) observes
`loaded = true` and leaves `cacheStart` unchanged; a call at or past the
timeout forces `loaded = false`. -/
theorem show_one_time_window (c : Configuration) (cs t1 t2 : Int)
    (hdaemon : c.flags.daemon = false) (hnocache : c.general.noCache = false)
    (honetime : c.general.cacheOneTime = true)
    (hcs : cs ≠ 0)
    (hvalid : t1 - cs < c.general.cacheTimeout)
    (hexpired : c.general.cacheTimeout ≤ t2 - cs)
    (hsat : c.general.cacheTimeout ≤ maxDurationSeconds) :
    showUpdate ⟨cs, true, c⟩ c t1 = ⟨cs, true, c⟩ ∧
    (showUpdate ⟨cs, true, c⟩ c t2).loaded = false := by
  have hv : goSubSeconds t1 cs < c.general.cacheTimeout :=
    lt_of_le_of_lt (min_le_left _ _) hvalid
  have he : ¬ goSubSeconds t2 cs < c.general.cacheTimeout :=
    not_lt.mpr (le_min hexpired hsat)
  constructor
  · unfold showUpdate credentialCheck updateConfig cacheCheck
    simp [hdaemon, hnocache, honetime, hcs, hv]
  · unfold showUpdate credentialCheck updateConfig cacheCheck
    simp [hdaemon, hnocache, honetime, hcs, he]

/-- Witness for C3: unlock at 10, timeout 60: a call at 50 keeps the state
unchanged, a call at 70 unloads. -/
theorem show_one_time_window_witness :
    showUpdate ⟨10, true, sampleOneTimeConfig⟩ sampleOneTimeConfig 50
      = ⟨10, true, sampleOneTimeConfig⟩ ∧
    (showUpdate ⟨10, true, sampleOneTimeConfig⟩ sampleOneTimeConfig 70).loaded = false :=
  show_one_time_window sampleOneTimeConfig 10 50 70 rfl rfl rfl (by decide) (by decide)
    (by decide) (by decide)

/-- C5: a scheduled clipboard-clear task whose read succeeds clears the
clipboard only when the live content still equals the copy-time snapshot: an
externally overwritten value is left intact, an unchanged value is cleared. -/
theorem cleanClipboard_clears_only_matching (text live : String) :
    (live ≠ text → cleanClipboardResult text live = live) ∧
    (live = text → cleanClipboardResult text live = "") := by
  constructor
  · intro h
    unfold cleanClipboardResult cleanClipboardDecision applyClipAction
    simp [Ne.symm h]
  · intro h
    subst h
    unfold cleanClipboardResult cleanClipboardDecision applyClipAction
    simp

/-- Witness for C5: copy "A", overwrite to "B" before the timeout: "B" stays;
copy "A" with no change: cleared. -/
theorem cleanClipboard_clears_only_matching_witness :
    cleanClipboardResult sampleCopiedValue sampleOverwrittenValue = sampleOverwrittenValue ∧
    cleanClipboardResult sampleCopiedValue sampleCopiedValue = "" :=
  ⟨(cleanClipboard_clears_only_matching sampleCopiedValue sampleOverwrittenValue).1 (by decide),
   (cleanClipboard_clears_only_matching sampleCopiedValue sampleCopiedValue).2 rfl⟩

/-- C9: if the clear task fails to read the clipboard it performs no clear at
all; the clipboard is left unchanged whatever it holds. -/
theorem cleanClipboard_read_error_keeps (text msg live : String) :
    applyClipAction (cleanClipboardDecision text (ClipReadResult.readError msg)) live = live :=
  rfl

/-- C4, evaluating the code at the failing input: for a permanent daemon the
accept-loop deadline is not infinite.  `CacheStart` is never set when the
daemon flag is on, so it stays at the Go zero time (`0`); at any realistic
wall clock the saturated elapsed time dwarfs the 60-second timeout, the
remaining cache budget is negative, the deadline is already in the past, and
the iteration shuts the listener down even though a client is connecting at
that very instant.  Meanwhile `Show` itself indeed never unloads a daemon
session by timing (third conjunct). -/
theorem daemon_listener_dies_despite_daemon_flag :
    remainingCacheTime daemonConfig.general.cacheTimeout 0 nowSeconds < 0 ∧
    listenerIteration daemonConfig.general.cacheTimeout 0 nowSeconds (some nowSeconds)
      = ListenerStep.gracefulShutdown ∧
    showUpdate ⟨0, true, daemonConfig⟩ daemonConfig nowSeconds = ⟨0, true, daemonConfig⟩ :=
  ⟨by decide, by decide, by decide⟩

/-- C6, counterexample: when the daemon loop terminates with a decode failure,
`main` reaches `log.Fatal` and the process exits without waiting on the
clipboard-task `WaitGroup`. -/
theorem main_skips_wait_on_decode_failure :
    mainWaitsForClipboardTasks
      (setupListenerReturn (LoopTermination.decodeFailure sampleErrMsg)) = false :=
  rfl

/-- C6, amended: the process waits for outstanding clipboard-clear tasks
exactly when the daemon loop returns `nil` — accept-deadline expiry and
client-driven exit (explicit Exit selection or a fatal navigation error); on a
decode or accept failure `log.Fatal` terminates the process without waiting. -/
theorem main_waits_iff_loop_returns_nil (t : LoopTermination) :
    mainWaitsForClipboardTasks (setupListenerReturn t) = true ↔
      t = LoopTermination.deadlineExpiry ∨ t = LoopTermination.clientExit := by
  cases t <;> simp [mainWaitsForClipboardTasks, setupListenerReturn]

/-- C7: a decode that has not finished when the 3-second watchdog fires is
absorbed (logged, loop keeps listening), while a decode failure other than a
clean stream closure that arrives in time makes the daemon loop return that
error (process-fatal). -/
theorem watchdog_absorbs_slow_escalates_failed_decodes (d : DecodeRun) :
    (3 ≤ d.finishTime → watchdogOutcome d = DispatchOutcome.absorbedTimeout) ∧
    (∀ e, d.finishTime < 3 → d.result = GobDecodeResult.failure e →
      watchdogOutcome d = DispatchOutcome.fatal e) := by
  constructor
  · intro h
    unfold watchdogOutcome
    rw [if_neg (not_lt.mpr h)]
  · intro e hlt hres
    unfold watchdogOutcome
    rw [if_pos hlt, hres]

/-- Witness for C7: a decode finishing at 5 seconds is absorbed; a decode
failing at 1 second is escalated as the loop return value. -/
theorem watchdog_absorbs_slow_escalates_failed_decodes_witness :
    watchdogOutcome ⟨GobDecodeResult.ok ⟨[]⟩, 5⟩ = DispatchOutcome.absorbedTimeout ∧
    watchdogOutcome ⟨GobDecodeResult.failure sampleErrMsg, 1⟩
      = DispatchOutcome.fatal sampleErrMsg :=
  ⟨(watchdog_absorbs_slow_escalates_failed_decodes ⟨GobDecodeResult.ok ⟨[]⟩, 5⟩).1 (by decide),
   (watchdog_absorbs_slow_escalates_failed_decodes
      ⟨GobDecodeResult.failure sampleErrMsg, 1⟩).2 sampleErrMsg (by decide) rfl⟩

/-- Reading back `n` characters that were written as characters restores them
and leaves the remaining wire untouched. -/
theorem takeChars_encoded (cs : List Char) (rest : List WireSym) :
    takeChars cs.length (cs.map WireSym.ch ++ rest) = some (cs, rest) := by
  induction cs with
  | nil => rfl
  | cons c cs ih => simp [takeChars, ih]

/-- Decoding one serialized string restores it. -/
theorem decodeOneString_encoded (s : String) (rest : List WireSym) :
    decodeOneString (encodeString s ++ rest) = some (s, rest) := by
  cases s with
  | mk data => simp [encodeString, decodeOneString, takeChars_encoded]

/-- Decoding a serialized string list restores it. -/
theorem decodeStrings_encoded (ss : List String) (rest : List WireSym) :
    decodeStrings ss.length ((ss.map encodeString).flatten ++ rest) = some (ss, rest) := by
  induction ss with
  | nil => rfl
  | cons s ss ih =>
    simp [decodeStrings, List.append_assoc, decodeOneString_encoded, ih]

/-- C8: encoding any ordered argument list into a `Packet` as the client does
and decoding it as the daemon does reproduces an identical ordered list
(`args` ranges over all lists, including the empty one). -/
theorem packet_roundtrip (args : List String) :
    decodePacket (encodePacket ⟨args⟩) = some ⟨args⟩ := by
  have h := decodeStrings_encoded args []
  rw [List.append_nil] at h
  simp [encodePacket, decodePacket, h]

/-- C10: a picker line that is non-cancelled, error-free and matches none of
the three offered options leaves the Go zero value `MenuShow` in place, and
`OpenMenu` therefore proceeds to entry selection as if "Show entries" had been
chosen. -/
theorem promptMenu_unmatched_defaults_to_show (r : String) (h : r ∉ menuSelections) :
    promptMenuSelection r = MenuShow ∧
    openMenuDispatch (promptMenuSelection r) = NavStep.entrySelection := by
  simp only [menuSelections, List.mem_cons, List.not_mem_nil, or_false, not_or] at h
  obtain ⟨h1, h2, h3⟩ := h
  have hsel : promptMenuSelection r = MenuShow := by
    unfold promptMenuSelection menuSelections
    simp [List.findIdx?, beq_iff_eq, Ne.symm h1, Ne.symm h2, Ne.symm h3]
  exact ⟨hsel, by rw [hsel]; rfl⟩

/-- Witness for C10: the unmatched line "Show entrie" yields `MenuShow` and
the call proceeds to entry selection. -/
theorem promptMenu_unmatched_defaults_to_show_witness :
    promptMenuSelection sampleUnmatchedLine = MenuShow ∧
    openMenuDispatch (promptMenuSelection sampleUnmatchedLine) = NavStep.entrySelection :=
  promptMenu_unmatched_defaults_to_show sampleUnmatchedLine (by decide)

end Kpmenu
